import Mathlib

/-!
Verification of the Braket execution client
(`src/qibo_cloud_backends/braket_client.py`).

The client is a thin adapter: `BraketClientBackend.__init__` resolves a
device selector into one of three device classes, and `execute_circuit`
validates the measurement list, translates the circuit, submits it to the
device, optionally busy-polls the task status, retrieves the samples, and
wraps everything into a `MeasurementOutcomes` container.

We shallow-embed the client over abstract oracles for the external
collaborators: `to_braket` (the translation pass, defined in a separate
module), `device.run`, `task.state` and `task.result` (the cloud SDK).
`execute_circuit` is modelled as a fuel-indexed function returning the
post-call client state, the trace of external interactions (device calls,
prints, sleeps), and either the result container or the propagated Python
exception.  `none` signals that the polling loop did not finish within the
given fuel; divergence of the real loop corresponds to the result being
`none` for every fuel.
-/

namespace BraketClient

/-- A Python exception value, carrying its class and message. -/
inductive PyError where
  | runtimeError (msg : String)
  | valueError (msg : String)
  | sdkError (msg : String)
  deriving DecidableEq, Repr

/-- The device resolved by the constructor: `LocalSimulator()` is
`LocalSimulator none`, `LocalSimulator "braket_dm"` is
`LocalSimulator (some "braket_dm")`, and `AwsDevice(arn)` is
`AwsDevice arn`. -/
inductive Device where
  | LocalSimulator (backend : Option String)
  | AwsDevice (arn : String)
  deriving DecidableEq, Repr

/-- The client state: the two flags and the device reference recorded by
`__init__` (plus the `name` attribute set to "aws"). -/
structure BraketClientBackend where
  verbatim_circuit : Bool
  verbosity : Bool
  device : Device
  name : String
  deriving DecidableEq, Repr

/-- `BraketClientBackend.__init__`: resolves the `device` selector.
`device == "braket_dm"` gives the local density-matrix simulator; any
other truthy (non-`None`, non-empty) string gives `AwsDevice(device)`;
otherwise the default `LocalSimulator()`. -/
def BraketClientBackend.init (device : Option String)
    (verbatim_circuit : Bool := false) (verbosity : Bool := false) :
    BraketClientBackend :=
  { verbatim_circuit := verbatim_circuit
    verbosity := verbosity
    device :=
      match device with
      | some d =>
        if d = "braket_dm" then Device.LocalSimulator (some "braket_dm")
        else if d ≠ "" then Device.AwsDevice d
        else Device.LocalSimulator none
      | none => Device.LocalSimulator none
    name := "aws" }

/-- The source circuit as `execute_circuit` sees it: only its
`measurements` attribute is consulted (the gate list is consumed by the
external translation pass, which we treat as an oracle). `M` is the type
of measurement gate objects. -/
structure QiboCircuit (M : Type) where
  measurements : List M

/-- The value returned by `task.result()`: exposes the raw per-shot
sample array through its `measurements` attribute. `S` is the sample
array type. -/
structure TaskResult (S : Type) where
  measurements : S

/-- The quantum task handle returned by `device.run`: `state` gives the
status string returned by the n-th call to `task.state()` (or the
exception that call raises), `result` gives the outcome of
`task.result()`. -/
structure Task (S : Type) where
  state : Nat → Except PyError String
  result : Except PyError (TaskResult S)

/-- The external collaborators of `execute_circuit`: the translation pass
`to_braket(circuit, verbatim_circuit)` producing a Braket circuit of type
`BC` (or raising), and the device `run(braket_circuit, shots=nshots,
**kwargs)` call producing a task handle (or raising). `K` is the type of
the keyword-options bag. -/
structure Env (M BC S K : Type) where
  to_braket : QiboCircuit M → Bool → Except PyError BC
  run : Device → BC → Int → K → Except PyError (Task S)

/-- One entry of the external-interaction trace of `execute_circuit`. -/
inductive Event (BC K : Type) where
  | deviceRun (circ : BC) (shots : Int) (kwargs : K)
  | taskState (status : String)
  | printOut (s : String)
  | sleepSec (n : Nat)
  | taskResult
  deriving DecidableEq, Repr

/-- The result container: `MeasurementOutcomes(measurements=…, backend=self,
samples=…, nshots=…)`. -/
structure MeasurementOutcomes (M S : Type) where
  measurements : List M
  backend : BraketClientBackend
  samples : S
  nshots : Int

variable {M BC S K : Type}

/-- The line-clearing print at the end of a polling iteration:
a carriage return followed by 30 spaces. -/
def clearLine : String := "\r" ++ "                              "

/-- Events of a single status poll: the `task.state()` call and the
status print. -/
def statusEvents (status : String) : List (Event BC K) :=
  [Event.taskState status, Event.printOut ("> Status " ++ status)]

/-- Events of the fixed pause between two polls: three one-second sleeps,
each followed by a dot, then the line-clearing print. -/
def waitEvents : List (Event BC K) :=
  [Event.sleepSec 1, Event.printOut ".", Event.sleepSec 1, Event.printOut ".",
   Event.sleepSec 1, Event.printOut ".", Event.printOut clearLine]

/-- The `while self.verbosity:` polling loop (entered only with verbosity
on, which never changes, so the loop exits only through the `break` on
status "COMPLETED" or through a raised exception).  `i` numbers the
`task.state()` calls; the fuel bounds how many iterations we unfold:
`none` means the loop did not finish within the fuel. A `some (evs,
some e)` outcome is an exception `e` raised by `task.state()` after the
trace `evs`. -/
def pollLoop (state : Nat → Except PyError String) :
    Nat → Nat → Option (List (Event BC K) × Option PyError)
  | _, 0 => none
  | i, fuel + 1 =>
    match state i with
    | Except.error e => some ([], some e)
    | Except.ok status =>
      if status = "COMPLETED" then
        some (statusEvents status ++ [Event.printOut "\n"], none)
      else
        match pollLoop state (i + 1) fuel with
        | none => none
        | some (evs, r) => some (statusEvents status ++ waitEvents ++ evs, r)

/-- `BraketClientBackend.execute_circuit(circuit_qibo, nshots=1000,
**kwargs)`, embedded statement by statement:

1. read `circuit_qibo.measurements`; raise `RuntimeError` if empty;
2. `braket_circuit = to_braket(circuit_qibo, self.verbatim_circuit)`;
3. `task = self.device.run(braket_circuit, shots=nshots, **kwargs)`;
4. the `while self.verbosity` polling loop;
5. `samples = task.result().measurements`;
6. return `MeasurementOutcomes(measurements, backend=self, samples, nshots)`.

The returned triple is (final client state, interaction trace, outcome);
`none` means the polling loop did not finish within `fuel` iterations. -/
def execute_circuit (self : BraketClientBackend) (env : Env M BC S K)
    (circuit_qibo : QiboCircuit M) (fuel : Nat) (kwargs : K)
    (nshots : Int := 1000) :
    Option (BraketClientBackend × List (Event BC K) ×
            Except PyError (MeasurementOutcomes M S)) :=
  if circuit_qibo.measurements.isEmpty then
    some (self, [],
      Except.error (PyError.runtimeError "No measurement found in the provided circuit."))
  else
    match env.to_braket circuit_qibo self.verbatim_circuit with
    | Except.error e => some (self, [], Except.error e)
    | Except.ok braket_circuit =>
      match env.run self.device braket_circuit nshots kwargs with
      | Except.error e =>
        some (self, [Event.deviceRun braket_circuit nshots kwargs], Except.error e)
      | Except.ok task =>
        match (if self.verbosity then pollLoop task.state 0 fuel
               else some ([], none)) with
        | none => none
        | some (evs, some e) =>
          some (self, Event.deviceRun braket_circuit nshots kwargs :: evs,
            Except.error e)
        | some (evs, none) =>
          match task.result with
          | Except.error e =>
            some (self,
              (Event.deviceRun braket_circuit nshots kwargs :: evs) ++ [Event.taskResult],
              Except.error e)
          | Except.ok r =>
            some (self,
              (Event.deviceRun braket_circuit nshots kwargs :: evs) ++ [Event.taskResult],
              Except.ok { measurements := circuit_qibo.measurements
                          backend := self
                          samples := r.measurements
                          nshots := nshots })

/-! ### Concrete instantiations used by the witnesses -/

/-- A circuit with no measurement instructions. -/
def circEmpty : QiboCircuit Nat := ⟨[]⟩

/-- A circuit measuring two (abstractly numbered) measurement gates. -/
def circTwo : QiboCircuit Nat := ⟨[7, 8]⟩

/-- A task that is already completed and yields two shots of samples. -/
def okTask : Task (List (List Nat)) :=
  { state := fun _ => Except.ok "COMPLETED"
    result := Except.ok ⟨[[0, 1], [1, 0]]⟩ }

/-- A task that reports "RUNNING" forever. -/
def runningTask : Task (List (List Nat)) :=
  { state := fun _ => Except.ok "RUNNING"
    result := Except.ok ⟨[]⟩ }

/-- A task whose first status poll raises an SDK error. -/
def stateFailTask : Task (List (List Nat)) :=
  { state := fun _ => Except.error (PyError.sdkError "poll failed")
    result := Except.ok ⟨[]⟩ }

/-- A task whose result retrieval raises an SDK error. -/
def resultFailTask : Task (List (List Nat)) :=
  { state := fun _ => Except.ok "COMPLETED"
    result := Except.error (PyError.sdkError "retrieval failed") }

/-- An environment in which translation and submission succeed and the
task completes immediately. -/
def okEnv : Env Nat Unit (List (List Nat)) (List (String × Nat)) :=
  { to_braket := fun _ _ => Except.ok ()
    run := fun _ _ _ _ => Except.ok okTask }

/-- An environment whose task never leaves "RUNNING". -/
def runningEnv : Env Nat Unit (List (List Nat)) (List (String × Nat)) :=
  { to_braket := fun _ _ => Except.ok ()
    run := fun _ _ _ _ => Except.ok runningTask }

/-- An environment in which the translation pass raises (an unsupported
gate kind). -/
def transFailEnv : Env Nat Unit (List (List Nat)) (List (String × Nat)) :=
  { to_braket := fun _ _ => Except.error (PyError.valueError "Gate foo not supported.")
    run := fun _ _ _ _ => Except.ok okTask }

/-- An environment in which `device.run` raises an SDK error. -/
def runFailEnv : Env Nat Unit (List (List Nat)) (List (String × Nat)) :=
  { to_braket := fun _ _ => Except.ok ()
    run := fun _ _ _ _ => Except.error (PyError.sdkError "device unreachable") }

/-- An environment whose task fails on the first status poll. -/
def stateFailEnv : Env Nat Unit (List (List Nat)) (List (String × Nat)) :=
  { to_braket := fun _ _ => Except.ok ()
    run := fun _ _ _ _ => Except.ok stateFailTask }

/-- An environment whose task fails on result retrieval. -/
def resultFailEnv : Env Nat Unit (List (List Nat)) (List (String × Nat)) :=
  { to_braket := fun _ _ => Except.ok ()
    run := fun _ _ _ _ => Except.ok resultFailTask }

/-- A client on the default local simulator, verbosity off. -/
def quietClient : BraketClientBackend := BraketClientBackend.init none

/-- A client on the default local simulator, verbosity on. -/
def verboseClient : BraketClientBackend := BraketClientBackend.init none false true

/-! ### Claims -/

/-- **C1.** For every source circuit whose measurement list is empty,
`execute_circuit` raises a `RuntimeError` ("No measurement found in the
provided circuit.") with an empty interaction trace: no translation
result is submitted, `device.run` is never called, and no job handle is
created. -/
theorem C1_empty_measurements_raise (self : BraketClientBackend)
    (env : Env M BC S K) (c : QiboCircuit M) (fuel : Nat) (kwargs : K)
    (nshots : Int) (h : c.measurements = []) :
    execute_circuit self env c fuel kwargs nshots =
      some (self, [],
        Except.error (PyError.runtimeError "No measurement found in the provided circuit.")) := by
  have hE : c.measurements.isEmpty = true := by simp [h]
  simp [execute_circuit, hE]

/-- Witness for C1 at a concrete empty-measurement circuit: the outcome
is the `RuntimeError` and the interaction trace is empty, so `device.run`
was never called. -/
theorem C1_witness :
    execute_circuit quietClient okEnv circEmpty 5 [("foo", 1)] 100 =
      some (quietClient, [],
        Except.error (PyError.runtimeError "No measurement found in the provided circuit.")) :=
  C1_empty_measurements_raise quietClient okEnv circEmpty 5 [("foo", 1)] 100 rfl

/-- **C2.** Constructing the client with `device=None` yields the default
local statevector simulator `LocalSimulator()`; with the literal string
"braket_dm" the local density-matrix simulator
`LocalSimulator("braket_dm")`; and with any other non-empty string a
remote device `AwsDevice(device)` resolved from that string. -/
theorem C2_device_resolution (vb vs : Bool) (d : String)
    (hdm : d ≠ "braket_dm") (hne : d ≠ "") :
    (BraketClientBackend.init none vb vs).device = Device.LocalSimulator none ∧
    (BraketClientBackend.init (some "braket_dm") vb vs).device =
      Device.LocalSimulator (some "braket_dm") ∧
    (BraketClientBackend.init (some d) vb vs).device = Device.AwsDevice d := by
  refine ⟨rfl, rfl, ?_⟩
  simp [BraketClientBackend.init, hdm, hne]

/-- Witness for C2 at concrete flag values and a concrete ARN string. -/
theorem C2_witness :
    (BraketClientBackend.init none false false).device = Device.LocalSimulator none ∧
    (BraketClientBackend.init (some "braket_dm") false false).device =
      Device.LocalSimulator (some "braket_dm") ∧
    (BraketClientBackend.init
      (some "arn:aws:braket:::device/quantum-simulator/amazon/sv1") false false).device =
      Device.AwsDevice "arn:aws:braket:::device/quantum-simulator/amazon/sv1" :=
  C2_device_resolution false false
    "arn:aws:braket:::device/quantum-simulator/amazon/sv1" (by decide) (by decide)

/-- Helper: a non-empty list has `isEmpty = false`. -/
theorem isEmpty_false_of_ne_nil {α : Type} {l : List α} (h : l ≠ []) :
    l.isEmpty = false := by
  cases l with
  | nil => exact absurd rfl h
  | cons a t => rfl

/-- **C3.** Every successful execution returns a `MeasurementOutcomes`
container combining exactly the source circuit's own measurement list,
the raw samples obtained from the job's `result()` call, and the
requested shot count. -/
theorem C3_result_container (self : BraketClientBackend) (env : Env M BC S K)
    (c : QiboCircuit M) (fuel : Nat) (kwargs : K) (nshots : Int)
    (s' : BraketClientBackend) (tr : List (Event BC K))
    (mo : MeasurementOutcomes M S)
    (h : execute_circuit self env c fuel kwargs nshots = some (s', tr, Except.ok mo)) :
    mo.measurements = c.measurements ∧ mo.backend = self ∧ mo.nshots = nshots ∧
    ∃ bc task r, env.to_braket c self.verbatim_circuit = Except.ok bc ∧
      env.run self.device bc nshots kwargs = Except.ok task ∧
      task.result = Except.ok r ∧ mo.samples = r.measurements := by
  unfold execute_circuit at h
  split at h
  · simp at h
  · split at h
    · simp at h
    · rename_i bc hbc
      split at h
      · simp at h
      · rename_i task htask
        split at h
        · simp at h
        · simp at h
        · rename_i evs hpoll
          split at h
          · simp at h
          · rename_i r hr
            simp only [Option.some.injEq, Prod.mk.injEq, Except.ok.injEq] at h
            obtain ⟨h1, h2, h3⟩ := h
            subst h3
            exact ⟨rfl, rfl, rfl, bc, task, r, hbc, htask, hr, rfl⟩

/-- Witness for C3: a concrete successful execution, whose container
carries the circuit's measurements, the task's samples, and the shot
count. -/
theorem C3_witness :
    ({ measurements := [7, 8], backend := quietClient,
       samples := [[0, 1], [1, 0]], nshots := 100 } :
        MeasurementOutcomes Nat (List (List Nat))).measurements = circTwo.measurements ∧
    ({ measurements := [7, 8], backend := quietClient,
       samples := [[0, 1], [1, 0]], nshots := 100 } :
        MeasurementOutcomes Nat (List (List Nat))).backend = quietClient ∧
    ({ measurements := [7, 8], backend := quietClient,
       samples := [[0, 1], [1, 0]], nshots := 100 } :
        MeasurementOutcomes Nat (List (List Nat))).nshots = 100 ∧
    ∃ bc task r, okEnv.to_braket circTwo quietClient.verbatim_circuit = Except.ok bc ∧
      okEnv.run quietClient.device bc 100 [("foo", 1)] = Except.ok task ∧
      task.result = Except.ok r ∧
      ({ measurements := [7, 8], backend := quietClient,
         samples := [[0, 1], [1, 0]], nshots := 100 } :
          MeasurementOutcomes Nat (List (List Nat))).samples = r.measurements :=
  C3_result_container quietClient okEnv circTwo 5 [("foo", 1)] 100 quietClient
    [Event.deviceRun () 100 [("foo", 1)], Event.taskResult]
    { measurements := [7, 8], backend := quietClient,
      samples := [[0, 1], [1, 0]], nshots := 100 } rfl

/-- **C4.** Translation happens strictly before submission: if
`to_braket` (invoked with the client's `verbatim_circuit` flag) raises,
the error propagates and the interaction trace is empty, so `device.run`
is never called and no job is submitted. -/
theorem C4_translation_before_submission (self : BraketClientBackend)
    (env : Env M BC S K) (c : QiboCircuit M) (fuel : Nat) (kwargs : K)
    (nshots : Int) (e : PyError) (hm : c.measurements ≠ [])
    (ht : env.to_braket c self.verbatim_circuit = Except.error e) :
    execute_circuit self env c fuel kwargs nshots = some (self, [], Except.error e) := by
  simp [execute_circuit, isEmpty_false_of_ne_nil hm, ht]

/-- Witness for C4: a concrete environment whose translation pass raises
an unsupported-gate error; the error propagates with an empty trace. -/
theorem C4_witness :
    execute_circuit quietClient transFailEnv circTwo 5 [("foo", 1)] 100 =
      some (quietClient, [],
        Except.error (PyError.valueError "Gate foo not supported.")) :=
  C4_translation_before_submission quietClient transFailEnv circTwo 5 [("foo", 1)] 100
    (PyError.valueError "Gate foo not supported.") (by decide) rfl

/-- Extracts the duration of a sleep event. -/
def Event.sleepTime : Event BC K → Option Nat
  | Event.sleepSec n => some n
  | _ => none

/-- Helper: if every status poll succeeds with a status other than
"COMPLETED", the polling loop does not finish within any fuel. -/
theorem pollLoop_none_of_never_completed
    {state : Nat → Except PyError String}
    (h : ∀ n, ∃ s, state n = Except.ok s ∧ s ≠ "COMPLETED") :
    ∀ fuel i, pollLoop state i fuel = (none : Option (List (Event BC K) × Option PyError)) := by
  intro fuel
  induction fuel with
  | zero => intro i; rfl
  | succ f ih =>
    intro i
    obtain ⟨s, hs, hne⟩ := h i
    simp [pollLoop, hs, hne, ih (i + 1)]

/-- Helper: a normal (exception-free) exit of the polling loop implies
some status poll returned exactly "COMPLETED". -/
theorem pollLoop_ok_completed {state : Nat → Except PyError String} :
    ∀ fuel i (evs : List (Event BC K)),
      pollLoop state i fuel = some (evs, none) →
      ∃ n, state n = Except.ok "COMPLETED" := by
  intro fuel
  induction fuel with
  | zero => intro i evs h; simp [pollLoop] at h
  | succ f ih =>
    intro i evs h
    rw [pollLoop] at h
    cases hs : state i with
    | error e => rw [hs] at h; simp at h
    | ok status =>
      rw [hs] at h
      dsimp only at h
      by_cases hc : status = "COMPLETED"
      · exact ⟨i, hc ▸ hs⟩
      · rw [if_neg hc] at h
        cases hrec : pollLoop state (i + 1) f with
        | none => rw [hrec] at h; simp at h
        | some p =>
          rw [hrec] at h
          simp only [Option.some.injEq, Prod.mk.injEq] at h
          obtain ⟨evs', r⟩ := p
          simp only at h
          obtain ⟨-, hr⟩ := h
          exact ih (i + 1) evs' (by rw [hrec, hr])

/-- **C5.** With verbosity enabled, `execute_circuit` busy-polls the
task's status: (a) if every poll succeeds with a status other than
"COMPLETED" the loop never terminates, for any fuel (no timeout, no
attempt bound, no cancellation); (b) a normal loop exit happens only when
some status poll returned the literal value "COMPLETED"; (c) the pause
between consecutive polls is the fixed constant pattern of three
one-second sleeps. -/
theorem C5_busy_wait_polling (self : BraketClientBackend) (env : Env M BC S K)
    (c : QiboCircuit M) (fuel : Nat) (kwargs : K) (nshots : Int)
    (bc : BC) (task : Task S)
    (hv : self.verbosity = true)
    (hm : c.measurements ≠ [])
    (ht : env.to_braket c self.verbatim_circuit = Except.ok bc)
    (hr : env.run self.device bc nshots kwargs = Except.ok task)
    (hnc : ∀ n, ∃ s, task.state n = Except.ok s ∧ s ≠ "COMPLETED") :
    execute_circuit self env c fuel kwargs nshots = none ∧
    (∀ (st : Nat → Except PyError String) (f i : Nat) (evs : List (Event BC K)),
       pollLoop st i f = some (evs, none) → ∃ n, st n = Except.ok "COMPLETED") ∧
    (waitEvents : List (Event BC K)).filterMap Event.sleepTime = [1, 1, 1] := by
  refine ⟨?_, fun st f i evs h => pollLoop_ok_completed f i evs h, by
    simp [waitEvents, Event.sleepTime, List.filterMap, clearLine]⟩
  simp [execute_circuit, isEmpty_false_of_ne_nil hm, ht, hr, hv,
    pollLoop_none_of_never_completed hnc fuel 0]

/-- Witness for C5: a concrete verbose client whose task reports
"RUNNING" forever; with fuel 3 the execution does not finish. -/
theorem C5_witness :
    execute_circuit verboseClient runningEnv circTwo 3 [("foo", 1)] 100 = none ∧
    (∀ (st : Nat → Except PyError String) (f i : Nat)
       (evs : List (Event Unit (List (String × Nat)))),
       pollLoop st i f = some (evs, none) → ∃ n, st n = Except.ok "COMPLETED") ∧
    (waitEvents : List (Event Unit (List (String × Nat)))).filterMap Event.sleepTime =
      [1, 1, 1] :=
  C5_busy_wait_polling verboseClient runningEnv circTwo 3 [("foo", 1)] 100 () runningTask
    rfl (by decide) rfl rfl (fun n => ⟨"RUNNING", rfl, by decide⟩)

/-- Helper: an exception exit of the polling loop is an exception raised
by some `task.state()` call, unmodified. -/
theorem pollLoop_error_from_state {state : Nat → Except PyError String} :
    ∀ fuel i (evs : List (Event BC K)) (e : PyError),
      pollLoop state i fuel = some (evs, some e) →
      ∃ n, state n = Except.error e := by
  intro fuel
  induction fuel with
  | zero => intro i evs e h; simp [pollLoop] at h
  | succ f ih =>
    intro i evs e h
    rw [pollLoop] at h
    cases hs : state i with
    | error e' =>
      rw [hs] at h
      simp only [Option.some.injEq, Prod.mk.injEq] at h
      exact ⟨i, by rw [hs, h.2]⟩
    | ok status =>
      rw [hs] at h
      dsimp only at h
      by_cases hc : status = "COMPLETED"
      · rw [if_pos hc] at h
        simp at h
      · rw [if_neg hc] at h
        cases hrec : pollLoop state (i + 1) f with
        | none => rw [hrec] at h; simp at h
        | some p =>
          rw [hrec] at h
          obtain ⟨evs', r⟩ := p
          simp only [Option.some.injEq, Prod.mk.injEq] at h
          obtain ⟨-, hr⟩ := h
          exact ih (i + 1) evs' e (by rw [hrec, hr])

/-- **C6.** The client catches, retries and wraps nothing: every error
outcome of `execute_circuit` is exactly (unmodified) either the
empty-measurement `RuntimeError` raised by this layer, or an exception
raised by the translation pass, by `device.run`, by some `task.state()`
poll, or by `task.result()`; and no partial result accompanies it —
either a full container is returned (C3) or the exception reaches the
caller. -/
theorem C6_errors_propagate_unmodified (self : BraketClientBackend)
    (env : Env M BC S K) (c : QiboCircuit M) (fuel : Nat) (kwargs : K)
    (nshots : Int) (s' : BraketClientBackend) (tr : List (Event BC K))
    (e : PyError)
    (h : execute_circuit self env c fuel kwargs nshots = some (s', tr, Except.error e)) :
    e = PyError.runtimeError "No measurement found in the provided circuit." ∨
    env.to_braket c self.verbatim_circuit = Except.error e ∨
    (∃ bc, env.to_braket c self.verbatim_circuit = Except.ok bc ∧
       env.run self.device bc nshots kwargs = Except.error e) ∨
    (∃ bc task n, env.to_braket c self.verbatim_circuit = Except.ok bc ∧
       env.run self.device bc nshots kwargs = Except.ok task ∧
       task.state n = Except.error e) ∨
    (∃ bc task, env.to_braket c self.verbatim_circuit = Except.ok bc ∧
       env.run self.device bc nshots kwargs = Except.ok task ∧
       task.result = Except.error e) := by
  unfold execute_circuit at h
  split at h
  · left
    simp only [Option.some.injEq, Prod.mk.injEq, Except.error.injEq] at h
    exact h.2.2.symm
  · split at h
    · rename_i e' hbc
      simp only [Option.some.injEq, Prod.mk.injEq, Except.error.injEq] at h
      exact Or.inr (Or.inl (h.2.2 ▸ hbc))
    · rename_i bc hbc
      split at h
      · rename_i e' hrun
        simp only [Option.some.injEq, Prod.mk.injEq, Except.error.injEq] at h
        exact Or.inr (Or.inr (Or.inl ⟨bc, hbc, h.2.2 ▸ hrun⟩))
      · rename_i task hrun
        split at h
        · simp at h
        · rename_i evs e' hpoll
          simp only [Option.some.injEq, Prod.mk.injEq, Except.error.injEq] at h
          cases hv : self.verbosity with
          | false =>
            rw [hv, if_neg (by simp)] at hpoll
            simp at hpoll
          | true =>
            rw [hv, if_pos rfl] at hpoll
            obtain ⟨n, hn⟩ := pollLoop_error_from_state fuel 0 evs e' hpoll
            exact Or.inr (Or.inr (Or.inr (Or.inl ⟨bc, task, n, hbc, hrun, h.2.2 ▸ hn⟩)))
        · rename_i evs hpoll
          split at h
          · rename_i e' hres
            simp only [Option.some.injEq, Prod.mk.injEq, Except.error.injEq] at h
            exact Or.inr (Or.inr (Or.inr (Or.inr ⟨bc, task, hbc, hrun, h.2.2 ▸ hres⟩)))
          · simp at h

/-- Witness for C6: a concrete execution in which `device.run` raises;
the outcome error is exactly the SDK's exception. -/
theorem C6_witness :
    (PyError.sdkError "device unreachable") =
      PyError.runtimeError "No measurement found in the provided circuit." ∨
    runFailEnv.to_braket circTwo quietClient.verbatim_circuit =
      Except.error (PyError.sdkError "device unreachable") ∨
    (∃ bc, runFailEnv.to_braket circTwo quietClient.verbatim_circuit = Except.ok bc ∧
       runFailEnv.run quietClient.device bc 100 [("foo", 1)] =
         Except.error (PyError.sdkError "device unreachable")) ∨
    (∃ bc task n, runFailEnv.to_braket circTwo quietClient.verbatim_circuit = Except.ok bc ∧
       runFailEnv.run quietClient.device bc 100 [("foo", 1)] = Except.ok task ∧
       task.state n = Except.error (PyError.sdkError "device unreachable")) ∨
    (∃ bc task, runFailEnv.to_braket circTwo quietClient.verbatim_circuit = Except.ok bc ∧
       runFailEnv.run quietClient.device bc 100 [("foo", 1)] = Except.ok task ∧
       task.result = Except.error (PyError.sdkError "device unreachable")) :=
  C6_errors_propagate_unmodified quietClient runFailEnv circTwo 5 [("foo", 1)] 100
    quietClient [Event.deviceRun () 100 [("foo", 1)]]
    (PyError.sdkError "device unreachable") rfl

/-- **C7.** Whenever submission is reached, the first interaction with
the device is `device.run` called with exactly the translated circuit,
the shot count, and the caller's keyword-options bag, forwarded verbatim
with no filtering, renaming or addition. -/
theorem C7_kwargs_forwarded_verbatim (self : BraketClientBackend)
    (env : Env M BC S K) (c : QiboCircuit M) (fuel : Nat) (kwargs : K)
    (nshots : Int) (bc : BC) (s' : BraketClientBackend)
    (tr : List (Event BC K)) (res : Except PyError (MeasurementOutcomes M S))
    (hm : c.measurements ≠ [])
    (ht : env.to_braket c self.verbatim_circuit = Except.ok bc)
    (h : execute_circuit self env c fuel kwargs nshots = some (s', tr, res)) :
    ∃ rest, tr = Event.deviceRun bc nshots kwargs :: rest := by
  unfold execute_circuit at h
  rw [if_neg (by simp [isEmpty_false_of_ne_nil hm]), ht] at h
  dsimp only at h
  split at h
  · simp only [Option.some.injEq, Prod.mk.injEq] at h
    exact ⟨[], h.2.1.symm⟩
  · split at h
    · simp at h
    · rename_i evs e hpoll
      simp only [Option.some.injEq, Prod.mk.injEq] at h
      exact ⟨evs, h.2.1.symm⟩
    · rename_i evs hpoll
      split at h
      · simp only [Option.some.injEq, Prod.mk.injEq] at h
        exact ⟨evs ++ [Event.taskResult], by rw [← h.2.1]; rfl⟩
      · simp only [Option.some.injEq, Prod.mk.injEq] at h
        exact ⟨evs ++ [Event.taskResult], by rw [← h.2.1]; rfl⟩

/-- Witness for C7: in a concrete successful execution the trace starts
with the `device.run` call carrying the exact options bag passed in. -/
theorem C7_witness :
    ∃ rest, ([Event.deviceRun () 100 [("foo", 1)], Event.taskResult] :
        List (Event Unit (List (String × Nat)))) =
      Event.deviceRun () 100 [("foo", 1)] :: rest :=
  C7_kwargs_forwarded_verbatim quietClient okEnv circTwo 5 [("foo", 1)] 100 ()
    quietClient [Event.deviceRun () 100 [("foo", 1)], Event.taskResult]
    (Except.ok { measurements := [7, 8], backend := quietClient,
                 samples := [[0, 1], [1, 0]], nshots := 100 })
    (by decide) rfl rfl

/-- **C8.** `execute_circuit` retains no state: whenever it returns (with
a container or an exception), the client state after the call — device
reference, `verbatim_circuit`, `verbosity`, `name` — is identical to the
state before it, so the instance is reusable across sequential calls. -/
theorem C8_no_state_retained (self : BraketClientBackend)
    (env : Env M BC S K) (c : QiboCircuit M) (fuel : Nat) (kwargs : K)
    (nshots : Int) (s' : BraketClientBackend) (tr : List (Event BC K))
    (res : Except PyError (MeasurementOutcomes M S))
    (h : execute_circuit self env c fuel kwargs nshots = some (s', tr, res)) :
    s' = self := by
  unfold execute_circuit at h
  split at h
  · exact (Prod.mk.injEq .. ▸ Option.some.injEq .. ▸ h).1.symm
  · split at h
    · exact (Prod.mk.injEq .. ▸ Option.some.injEq .. ▸ h).1.symm
    · split at h
      · exact (Prod.mk.injEq .. ▸ Option.some.injEq .. ▸ h).1.symm
      · split at h
        · simp at h
        · exact (Prod.mk.injEq .. ▸ Option.some.injEq .. ▸ h).1.symm
        · split at h
          · exact (Prod.mk.injEq .. ▸ Option.some.injEq .. ▸ h).1.symm
          · exact (Prod.mk.injEq .. ▸ Option.some.injEq .. ▸ h).1.symm

/-- Witness for C8 on a concrete successful execution. -/
theorem C8_witness : quietClient = quietClient :=
  C8_no_state_retained quietClient okEnv circTwo 5 [("foo", 1)] 100 quietClient
    [Event.deviceRun () 100 [("foo", 1)], Event.taskResult]
    (Except.ok { measurements := [7, 8], backend := quietClient,
                 samples := [[0, 1], [1, 0]], nshots := 100 }) rfl

/-- **C9.** When the caller omits the shot count, `execute_circuit` uses
the default of exactly 1000 shots: the submission to `device.run` carries
1000 and the returned container records 1000. -/
theorem C9_default_1000_shots (self : BraketClientBackend)
    (env : Env M BC S K) (c : QiboCircuit M) (fuel : Nat) (kwargs : K)
    (bc : BC) (task : Task S) (r : TaskResult S)
    (hm : c.measurements ≠ [])
    (ht : env.to_braket c self.verbatim_circuit = Except.ok bc)
    (hrun : env.run self.device bc 1000 kwargs = Except.ok task)
    (hv : self.verbosity = false)
    (hres : task.result = Except.ok r) :
    execute_circuit self env c fuel kwargs =
      some (self, [Event.deviceRun bc 1000 kwargs, Event.taskResult],
        Except.ok { measurements := c.measurements, backend := self,
                    samples := r.measurements, nshots := 1000 }) := by
  simp [execute_circuit, isEmpty_false_of_ne_nil hm, ht, hrun, hv, hres]

/-- Witness for C9: a concrete call with the shot count omitted submits
and records 1000 shots. -/
theorem C9_witness :
    execute_circuit quietClient okEnv circTwo 5 [("foo", 1)] =
      some (quietClient, [Event.deviceRun () 1000 [("foo", 1)], Event.taskResult],
        Except.ok { measurements := [7, 8], backend := quietClient,
                    samples := [[0, 1], [1, 0]], nshots := 1000 }) :=
  C9_default_1000_shots quietClient okEnv circTwo 5 [("foo", 1)] () okTask
    ⟨[[0, 1], [1, 0]]⟩ (by decide) rfl rfl rfl rfl

/-- **C10.** No validation of the shot count: for every circuit with a
non-empty measurement list, any `nshots` value — zero and negative
integers included — is forwarded unchanged to `device.run` and stored
unchanged in the returned container, with no error raised by this
layer. -/
theorem C10_no_shot_validation (self : BraketClientBackend)
    (env : Env M BC S K) (c : QiboCircuit M) (fuel : Nat) (kwargs : K)
    (nshots : Int) (bc : BC) (task : Task S) (r : TaskResult S)
    (hm : c.measurements ≠ [])
    (ht : env.to_braket c self.verbatim_circuit = Except.ok bc)
    (hrun : env.run self.device bc nshots kwargs = Except.ok task)
    (hv : self.verbosity = false)
    (hres : task.result = Except.ok r) :
    execute_circuit self env c fuel kwargs nshots =
      some (self, [Event.deviceRun bc nshots kwargs, Event.taskResult],
        Except.ok { measurements := c.measurements, backend := self,
                    samples := r.measurements, nshots := nshots }) := by
  simp [execute_circuit, isEmpty_false_of_ne_nil hm, ht, hrun, hv, hres]

/-- Witness for C10 at the negative shot count −3: it is forwarded to
`device.run` and recorded in the container unchanged, with no error. -/
theorem C10_witness :
    execute_circuit quietClient okEnv circTwo 5 [("foo", 1)] (-3) =
      some (quietClient, [Event.deviceRun () (-3) [("foo", 1)], Event.taskResult],
        Except.ok { measurements := [7, 8], backend := quietClient,
                    samples := [[0, 1], [1, 0]], nshots := (-3) }) :=
  C10_no_shot_validation quietClient okEnv circTwo 5 [("foo", 1)] (-3) () okTask
    ⟨[[0, 1], [1, 0]]⟩ (by decide) rfl rfl rfl rfl

end BraketClient
